import Mathlib

/-!
Verification development for the swc-based parsing plugin
(`core/src/ast_parser.rs` and `src/lib.rs`).

The development shallowly embeds the two source files:

* `ast_parser.rs`: the shared diagnostic store behind
  `SwcErrorBuffer(Arc<RwLock<SwcDiagnosticBuffer>>)` is modelled as a single
  `SwcDiagnosticBuffer` value threaded through state.  Cloning the handle
  (`buffered_error.clone()`, the boxed emitter inside the `Handler`) aliases
  the same store in the Rust code, so in the model every handle clone is
  represented by that one value and an emission through any clone is an
  update of it.

* the swc lexer/parser pair (`swc_ecma_parser`, an external crate) is
  modelled as an `Engine` parameter: a pure function of the grammar
  configuration, the target edition and the source text, returning the list
  of diagnostics it emits through the handler during lexing/parsing together
  with either a `SwcModule` or a raw `DiagnosticBuilder` error.  Purity of the
  engine reflects swc parsing being a deterministic in-memory computation.

* `swc_common::GLOBALS.set(&globals, f)` (a scoped-thread-local set) is
  modelled as pushing the context's globals on an activation stack for the
  dynamic extent of `f` and popping it on exit.

* the plugin transport (`src/lib.rs`): `serde_json::from_slice` is split
  into the external JSON-text parse of the byte buffer (represented by an
  `Option JValue` already handed to the op) and the concrete field
  extraction for the documented argument structs, which is embedded.
  `serde_json::to_string` / `to_vec` on strings and string lists are
  embedded as JSON string encoders; `Op::Sync(buf)` carries the final JSON
  text.  A panicking `.unwrap()` is modelled by the op returning `none`.

The repository modules `core::analyzer` and `core::parser` are not under
`src/`; ops that call them take the corresponding function as a parameter,
so the theorems quantify over every behaviour of the missing module.
-/

/-- Severity of a diagnostic (swc `Level`).  `cancelled` is the level a
`DiagnosticBuilder` gets from `err.cancel()`. -/
inductive Level where
  | bug
  | fatal
  | error
  | warning
  | note
  | help
  | cancelled
deriving DecidableEq, Repr

/-- One swc `Diagnostic` record: rendered message (`d.message()`), severity
and source spans (byte-offset ranges into the registered virtual file). -/
structure Diagnostic where
  level : Level
  message : String
  spans : List (Nat × Nat)
deriving DecidableEq, Repr

/-- `SwcDiagnosticBuffer` (ast_parser.rs line 17): the ordered record store
behind the `RwLock`, also the caller-facing error value. -/
structure SwcDiagnosticBuffer where
  diagnostics : List Diagnostic
deriving DecidableEq, Repr

/-- `#[derive(Clone)]` on `SwcDiagnosticBuffer`: a field-wise copy. -/
def SwcDiagnosticBuffer.clone (b : SwcDiagnosticBuffer) : SwcDiagnosticBuffer :=
  { diagnostics := b.diagnostics }

/-- `impl fmt::Display for SwcDiagnosticBuffer` (ast_parser.rs lines 23-34):
join the rendered messages of all records with a comma; `f.pad` under the
default formatter is the identity on the joined string. -/
def SwcDiagnosticBuffer.fmt (b : SwcDiagnosticBuffer) : String :=
  String.intercalate "," (b.diagnostics.map Diagnostic.message)

/-- A raw swc `DiagnosticBuilder` as returned by `parser.parse_module()` on a
parser-level error (before any `emit`/`cancel`). -/
structure DiagnosticBuilder where
  diagnostic : Diagnostic
deriving DecidableEq, Repr

/-- `DiagnosticBuilder::cancel`: marks the diagnostic as cancelled so that it
is dropped without being emitted anywhere. -/
def DiagnosticBuilder.cancel (db : DiagnosticBuilder) : DiagnosticBuilder :=
  { diagnostic := { db.diagnostic with level := Level.cancelled } }

/-- `impl Emitter for SwcErrorBuffer` (ast_parser.rs lines 47-51):
`self.0.write().unwrap().diagnostics.push((**db).clone())` — append one
record to the shared store. -/
def SwcErrorBuffer.emit (store : SwcDiagnosticBuffer) (d : Diagnostic) : SwcDiagnosticBuffer :=
  { diagnostics := store.diagnostics ++ [d] }

/-- The effect on the shared store of a sequence of `emit` calls, in
emission order. -/
def SwcErrorBuffer.emitAll (store : SwcDiagnosticBuffer) (ds : List Diagnostic) : SwcDiagnosticBuffer :=
  ds.foldl SwcErrorBuffer.emit store

/-- `impl From<SwcErrorBuffer> for SwcDiagnosticBuffer` (ast_parser.rs lines
53-58): take the read lock and clone the store.  Modelled in state-passing
style: the first component is the value produced (`s.clone()`), the second
is the live store after the conversion. -/
def SwcDiagnosticBuffer.fromErrorBuffer
    (store : SwcDiagnosticBuffer) : SwcDiagnosticBuffer × SwcDiagnosticBuffer :=
  (store.clone, store)

/-- swc `HandlerFlags`; `Default::default()` sets every field to `false`. -/
structure HandlerFlags where
  can_emit_warnings : Bool
  treat_err_as_bug : Bool
  dont_buffer_diagnostics : Bool
deriving DecidableEq, Repr

/-- `HandlerFlags::default()`. -/
def HandlerFlags.default : HandlerFlags :=
  { can_emit_warnings := false, treat_err_as_bug := false, dont_buffer_diagnostics := false }

/-- Which emitter a `Handler` was built around: the boxed `SwcErrorBuffer`
clone (buffering, never printing) or swc's tty `EmitterWriter` (the
auto-printing default used by `Handler::with_tty_emitter`). -/
inductive EmitterKind where
  | bufferEmitter
  | writerEmitter
deriving DecidableEq, Repr

/-- Whether diagnostics sent to this emitter are printed to the console. -/
def EmitterKind.autoPrints : EmitterKind → Bool
  | EmitterKind.bufferEmitter => false
  | EmitterKind.writerEmitter => true

/-- swc `Handler`: the destination emitter plus the flags it was configured
with.  The `bufferEmitter` case aliases the context's shared store. -/
structure Handler where
  emitter : EmitterKind
  flags : HandlerFlags
deriving DecidableEq, Repr

/-- `Handler::with_emitter_and_flags(emitter, flags)`. -/
def Handler.with_emitter_and_flags (e : EmitterKind) (f : HandlerFlags) : Handler :=
  { emitter := e, flags := f }

/-- `swc_ecma_parser::TsConfig`; `Default::default()` clears every flag. -/
structure TsConfig where
  tsx : Bool
  decorators : Bool
  dynamic_import : Bool
deriving DecidableEq, Repr

/-- `TsConfig::default()`. -/
def TsConfig.default : TsConfig :=
  { tsx := false, decorators := false, dynamic_import := false }

/-- `swc_ecma_parser::Syntax`: the grammar variant handed to the lexer. -/
inductive SwcSyntaxKind where
  | typescript (cfg : TsConfig)
  | es
deriving DecidableEq, Repr

/-- `swc_ecma_parser::JscTarget`: the ECMAScript target edition. -/
inductive JscTarget where
  | es3
  | es5
  | es2015
  | es2016
  | es2017
  | es2018
  | es2019
deriving DecidableEq, Repr

/-- `swc_common::FileName` (only the `Custom` variant is used here). -/
inductive FileName where
  | real (s : String)
  | custom (s : String)
deriving DecidableEq, Repr

/-- A `swc_ecma_ast::Module` (named `SwcModule` here to avoid the Mathlib
`Module` class): opaque to this core beyond being the
serializable output of a successful parse; `serialized` is its
`serde_json::to_string` text. -/
structure SwcModule where
  serialized : String
deriving DecidableEq, Repr

/-- What one run of the external swc lexer/parser pair does: the diagnostics
it emits through the session's handler during lexing/parsing, in emission
order, and the value `parser.parse_module()` returns. -/
structure EngineOutput where
  emitted : List Diagnostic
  result : Except DiagnosticBuilder SwcModule

/-- The external parsing engine (`swc_ecma_parser`), a pure function of the
grammar configuration, the target edition and the source text. -/
def Engine : Type :=
  SwcSyntaxKind → JscTarget → String → EngineOutput

/-- `AstParser` (ast_parser.rs lines 64-70).  `buffered_error` is the shared
record store behind the `Arc<RwLock<_>>`; every clone of the handle,
including the one boxed into `handler`, aliases it.  `globals` is the
identity of this context's `Globals` scope. -/
structure AstParser where
  buffered_error : SwcDiagnosticBuffer
  source_map : List (FileName × String)
  handler : Handler
  comments : List (Nat × String)
  globals : Nat

/-- `AstParser::new` (ast_parser.rs lines 73-92).  `g` is the identity the
allocator gives the freshly constructed `Globals::new()` scope; distinct
constructions receive distinct identities. -/
def AstParser.new (g : Nat) : AstParser :=
  { buffered_error := { diagnostics := [] },
    source_map := [],
    handler :=
      Handler.with_emitter_and_flags EmitterKind.bufferEmitter
        { HandlerFlags.default with
            dont_buffer_diagnostics := true,
            can_emit_warnings := true },
    comments := [],
    globals := g }

/-- The scoped-thread-local `swc_common::GLOBALS`: the stack of currently
activated `Globals` scopes on the calling thread. -/
structure World where
  activeGlobals : List Nat
deriving DecidableEq, Repr

/-- The configuration `parse_module` hands to `Lexer::new`. -/
structure EngineCall where
  cfg : SwcSyntaxKind
  target : JscTarget
  source : String
deriving DecidableEq, Repr

/-- Everything observable about one `parse_module` call: the continuation's
result, the context and globals stack after the call returns, the lexer
configuration used, the activation stack in effect for the dynamic extent of
the call (registration, lexing, parsing and the continuation), and the raw
parser-level error object in its final (cancelled) state when there was
one. -/
structure PMResult (R : Type) where
  value : R
  parser : AstParser
  world : World
  call : EngineCall
  duringStack : List Nat
  rawError : Option DiagnosticBuilder

/-- `AstParser::parse_module` (ast_parser.rs lines 94-132), line by line:
`GLOBALS.set(&self.globals, ...)` activates the context's globals for the
body's dynamic extent and restores the stack on exit; the body registers the
source under `FileName::Custom(file_name)` in the source map, clones the
buffer handle, fixes `TsConfig::default()` with `dynamic_import = true`,
builds the lexer with `Syntax::Typescript(ts_config)` and
`JscTarget::Es2019`, runs the parser (every diagnostic it emits lands in the
shared store through the handler), and on `Err` cancels the raw
`DiagnosticBuilder` and converts the shared buffer into the error value via
`From<SwcErrorBuffer>`; the continuation's result is returned. -/
def parse_module (R : Type) (engine : Engine) (p : AstParser) (w : World)
    (file_name source_code : String)
    (callback : Except SwcDiagnosticBuffer SwcModule → R) : PMResult R :=
  let entered : List Nat := p.globals :: w.activeGlobals
  let source_map' := p.source_map ++ [(FileName.custom file_name, source_code)]
  let buffered_err := p.buffered_error
  let ts_config : TsConfig := { TsConfig.default with dynamic_import := true }
  let stx := SwcSyntaxKind.typescript ts_config
  let run := engine stx JscTarget.es2019 source_code
  let store1 := SwcErrorBuffer.emitAll buffered_err run.emitted
  match run.result with
  | Except.ok m =>
      { value := callback (Except.ok m),
        parser := { p with source_map := source_map', buffered_error := store1 },
        world := w,
        call := { cfg := stx, target := JscTarget.es2019, source := source_code },
        duringStack := entered,
        rawError := none }
  | Except.error err =>
      let cancelled := err.cancel
      let converted := SwcDiagnosticBuffer.fromErrorBuffer store1
      { value := callback (Except.error converted.1),
        parser := { p with source_map := source_map', buffered_error := converted.2 },
        world := w,
        call := { cfg := stx, target := JscTarget.es2019, source := source_code },
        duringStack := entered,
        rawError := some cancelled }

/-- The fixed grammar configuration of ast_parser.rs lines 109-111:
`Syntax::Typescript(TsConfig { dynamic_import: true, ..Default::default() })`. -/
def fixedSwcSyntaxCfg : SwcSyntaxKind :=
  SwcSyntaxKind.typescript { TsConfig.default with dynamic_import := true }

/-- A JSON value, the deserializer's view of an input byte buffer.  An op's
input of `some v` stands for a buffer whose bytes are valid JSON text
denoting `v`; `none` stands for a buffer that is not valid JSON at all
(the text-level parse is done by the external `serde_json` crate). -/
inductive JValue where
  | jnull
  | jbool (b : Bool)
  | jnum (n : Int)
  | jstr (s : String)
  | jarr (xs : List JValue)
  | jobj (fields : List (String × JValue))

/-- `#[derive(Deserialize)] struct ParseArguments` (lib.rs lines 17-20). -/
structure ParseArguments where
  src : String
deriving DecidableEq, Repr

/-- `#[derive(Deserialize)] struct AnalyzerArguments` (lib.rs lines 22-26). -/
structure AnalyzerArguments where
  src : String
  dynamic : Bool
deriving DecidableEq, Repr

/-- Field extraction of `serde_json::from_slice::<ParseArguments>`: the JSON
value must be an object whose `src` field is a string; other fields are
ignored (serde's default), anything else fails to deserialize. -/
def from_slice_parse : Option JValue → Option ParseArguments
  | some (JValue.jobj fields) =>
      match fields.lookup "src" with
      | some (JValue.jstr s) => some { src := s }
      | _ => none
  | _ => none

/-- Field extraction of `serde_json::from_slice::<AnalyzerArguments>`: the
JSON value must be an object with a string `src` field and a boolean
`dynamic` field. -/
def from_slice_analyzer : Option JValue → Option AnalyzerArguments
  | some (JValue.jobj fields) =>
      match fields.lookup "src", fields.lookup "dynamic" with
      | some (JValue.jstr s), some (JValue.jbool b) => some { src := s, dynamic := b }
      | _, _ => none
  | _ => none

/-- JSON escaping of one character (the escapes `serde_json` emits for the
characters appearing in this development: quote, backslash and the common
control characters). -/
def escapeJsonChar (c : Char) : String :=
  if c.toNat = 34 then "\\\""
  else if c.toNat = 92 then "\\\\"
  else if c.toNat = 10 then "\\n"
  else if c.toNat = 13 then "\\r"
  else if c.toNat = 9 then "\\t"
  else String.singleton c

/-- `serde_json::to_string` at type `String`: the quoted, escaped JSON
string literal. -/
def encodeJsonString (s : String) : String :=
  "\"" ++ String.join (s.data.map escapeJsonChar) ++ "\""

/-- `serde_json::to_string` at type `Vec<String>`: a JSON array of string
literals. -/
def encodeJsonStringList (xs : List String) : String :=
  "[" ++ String.intercalate "," (xs.map encodeJsonString) ++ "]"

/-- `deno_core::plugin_api::Op` for the synchronous ops of lib.rs; the
payload is the JSON text whose UTF-8 bytes form the returned `Buf`. -/
inductive Op where
  | sync (buf : String)
deriving DecidableEq, Repr

/-- `ops_extract_dependencies` (lib.rs lines 29-45).  The repository module
`core::analyzer` is not under src/, so `analyze_dependencies` (and the serde
serialization `to_string_deps` of its success type) are parameters; the op's
own control flow is embedded from lib.rs.  A `none` result models the panic
of `.unwrap()` on a buffer that does not decode as `AnalyzerArguments`.
On an analyzer error the diagnostic content is dropped and the literal
string `"parse_error"` is serialized instead (`to_string` then `to_vec`,
hence the double encoding). -/
def ops_extract_dependencies {D E : Type} (analyze_dependencies : String → Bool → Except E D)
    (to_string_deps : D → String) (data : Option JValue) : Option Op :=
  match from_slice_analyzer data with
  | none => none
  | some params =>
      match analyze_dependencies params.src params.dynamic with
      | Except.ok deps => some (Op.sync (encodeJsonString (to_string_deps deps)))
      | Except.error _ => some (Op.sync (encodeJsonString (encodeJsonString "parse_error")))

/-- `op_parse` (lib.rs lines 47-54).  `core::parser::parse_js` is not under
src/ and is a parameter; on success its module is serialized with
`to_string` and re-encoded by `to_vec`.  A `none` result models the panic of
`.unwrap()` on a buffer that does not decode as `ParseArguments`. -/
def op_parse (parse_js : String → SwcModule) (data : Option JValue) : Option Op :=
  match from_slice_parse data with
  | none => none
  | some params => some (Op.sync (encodeJsonString (parse_js params.src).serialized))

/-- `op_parse_ts` (lib.rs lines 56-68).  `core::parser::parse_ts` is not
under src/ and is a parameter; per the spec it fails with the accumulated
`SwcDiagnosticBuffer`, whose `Display` rendering (`message.to_string()`,
i.e. `SwcDiagnosticBuffer.fmt`) is serialized in place of the AST.  A `none`
result models the panic of `.unwrap()` on a buffer that does not decode as
`ParseArguments`. -/
def op_parse_ts (parse_ts : String → Except SwcDiagnosticBuffer SwcModule)
    (data : Option JValue) : Option Op :=
  match from_slice_parse data with
  | none => none
  | some params =>
      let program := parse_ts params.src
      let result :=
        match program with
        | Except.ok ast => ast.serialized
        | Except.error message => encodeJsonString (SwcDiagnosticBuffer.fmt message)
      some (Op.sync (encodeJsonString result))

/-- The `ParseOutcome` handed to `parse_module`'s continuation. -/
def ParseOutcome : Type :=
  Except SwcDiagnosticBuffer SwcModule

/-- A concrete diagnostic record, for concrete evaluations. -/
def sampleDiag : Diagnostic :=
  { level := Level.error, message := "Unexpected token", spans := [(6, 7)] }

/-- A concrete engine behaviour that emits one diagnostic and then fails at
parser level, as swc does on `"const ="`. -/
def engineFailing : Engine :=
  fun _ _ _ => { emitted := [sampleDiag], result := Except.error { diagnostic := sampleDiag } }

/-- A concrete engine behaviour that succeeds without emitting. -/
def engineSucceeding : Engine :=
  fun _ _ _ => { emitted := [], result := Except.ok { serialized := "mod-ast-json" } }

/-- A thread with no activated globals scope. -/
def freshWorld : World :=
  { activeGlobals := [] }

/-- A concrete envelope for the parse ops: the buffer holding the JSON text
of an object with a `src` field. -/
def sampleParseEnvelope : Option JValue :=
  some (JValue.jobj [("src", JValue.jstr "const =")])

/-- A concrete envelope for the analyzer op: `src` plus `dynamic`. -/
def sampleAnalyzerEnvelope : Option JValue :=
  some (JValue.jobj [("src", JValue.jstr "const ="), ("dynamic", JValue.jbool false)])

/-- A buffer holding the JSON text of an object with none of the documented
fields. -/
def emptyJsonObjectEnvelope : Option JValue :=
  some (JValue.jobj [])

/-- Unfolding lemma for `emitAll`: a sequence of `emit` calls appends the
emitted records, in order, after the store's existing records. -/
theorem emitAll_diagnostics (store : SwcDiagnosticBuffer) (ds : List Diagnostic) :
    (SwcErrorBuffer.emitAll store ds).diagnostics = store.diagnostics ++ ds := by
  induction ds generalizing store with
  | nil => simp [SwcErrorBuffer.emitAll]
  | cons d rest ih =>
      have h : SwcErrorBuffer.emitAll store (d :: rest)
          = SwcErrorBuffer.emitAll (SwcErrorBuffer.emit store d) rest := rfl
      rw [h, ih]
      simp [SwcErrorBuffer.emit]

/-- Claim C1: for every call to `parse_module`, when the parser returns a
parser-level error that raw error object is cancelled and discarded, and
the continuation is instead applied to `Err` carrying the diagnostics
accumulated in the shared Diagnostic Buffer during lexing/parsing; when the
parser succeeds the continuation is applied to `Ok` of the module AST; in
both cases `parse_module` returns the continuation's result. -/
theorem parse_module_continuation_spec (R : Type) (engine : Engine) (p : AstParser)
    (w : World) (fn src : String) (f : ParseOutcome → R) :
    (∀ m : SwcModule, (engine fixedSwcSyntaxCfg JscTarget.es2019 src).result = Except.ok m →
        (parse_module R engine p w fn src f).value = f (Except.ok m)
        ∧ (parse_module R engine p w fn src f).rawError = none)
    ∧ (∀ db : DiagnosticBuilder,
        (engine fixedSwcSyntaxCfg JscTarget.es2019 src).result = Except.error db →
        (parse_module R engine p w fn src f).value
            = f (Except.error { diagnostics := p.buffered_error.diagnostics
                  ++ (engine fixedSwcSyntaxCfg JscTarget.es2019 src).emitted })
        ∧ (parse_module R engine p w fn src f).rawError = some db.cancel
        ∧ db.cancel.diagnostic.level = Level.cancelled) := by
  constructor
  · intro m h
    simp only [fixedSwcSyntaxCfg] at h
    simp [parse_module, h]
  · intro db h
    simp only [fixedSwcSyntaxCfg] at h
    refine ⟨?_, ?_, ?_⟩
    · simp [parse_module, h, SwcDiagnosticBuffer.fromErrorBuffer,
        SwcDiagnosticBuffer.clone, emitAll_diagnostics, fixedSwcSyntaxCfg]
    · simp [parse_module, h]
    · simp [DiagnosticBuilder.cancel]

/-- Witness for C1 at concrete inputs: a succeeding engine delivers
`Ok`, and the failing engine on a fresh context delivers `Err` holding
exactly the emitted diagnostic, with the raw error cancelled. -/
theorem parse_module_continuation_spec_witness :
    (parse_module ParseOutcome engineSucceeding (AstParser.new 0) freshWorld
        "test.ts" "let x" (fun r => r)).value = Except.ok { serialized := "mod-ast-json" }
    ∧ (parse_module ParseOutcome engineFailing (AstParser.new 0) freshWorld
        "test.ts" "const =" (fun r => r)).value = Except.error { diagnostics := [sampleDiag] }
    ∧ (parse_module ParseOutcome engineFailing (AstParser.new 0) freshWorld
        "test.ts" "const =" (fun r => r)).rawError
      = some { diagnostic := { sampleDiag with level := Level.cancelled } } := by
  have hok := (parse_module_continuation_spec ParseOutcome engineSucceeding (AstParser.new 0)
    freshWorld "test.ts" "let x" (fun r => r)).1 { serialized := "mod-ast-json" } rfl
  have herr := (parse_module_continuation_spec ParseOutcome engineFailing (AstParser.new 0)
    freshWorld "test.ts" "const =" (fun r => r)).2 { diagnostic := sampleDiag } rfl
  refine ⟨hok.1, ?_, ?_⟩
  · simpa [AstParser.new, engineFailing] using herr.1
  · simpa [DiagnosticBuilder.cancel] using herr.2.1

/-- Claim C2: every emitted diagnostic is appended to the single shared
record store (all handle clones, including the one boxed into the handler,
alias it — in the model they are the one `buffered_error` store); existing
records are never removed or modified by emission, and the buffer's order
equals emission order.  Within `parse_module`, the store after the call is
the store before the call extended by exactly the diagnostics the engine
emitted, in order. -/
theorem emit_append_only_in_order :
    (∀ (store : SwcDiagnosticBuffer) (ds : List Diagnostic),
        (SwcErrorBuffer.emitAll store ds).diagnostics = store.diagnostics ++ ds)
    ∧ (∀ (R : Type) (engine : Engine) (p : AstParser) (w : World) (fn src : String)
        (f : ParseOutcome → R),
        (parse_module R engine p w fn src f).parser.buffered_error.diagnostics
          = p.buffered_error.diagnostics
            ++ (engine fixedSwcSyntaxCfg JscTarget.es2019 src).emitted) := by
  refine ⟨emitAll_diagnostics, ?_⟩
  intro R engine p w fn src f
  rcases h : (engine fixedSwcSyntaxCfg JscTarget.es2019 src).result with db | m
  · simp only [fixedSwcSyntaxCfg] at h
    simp [parse_module, h, SwcDiagnosticBuffer.fromErrorBuffer, emitAll_diagnostics,
      fixedSwcSyntaxCfg]
  · simp only [fixedSwcSyntaxCfg] at h
    simp [parse_module, h, emitAll_diagnostics, fixedSwcSyntaxCfg]

/-- Claim C3: converting the shared buffer into the caller-facing error value
takes a read-locked clone, not a move or drain: the live store is unchanged
by the conversion and the clone equals its contents; consequently, after a
failed parse the accumulated diagnostics remain in the context's buffer, and
the failure value of a subsequent parse on the same context still contains
them (prior records, then the first parse's records, then the second's). -/
theorem from_error_buffer_clone_spec :
    (∀ store : SwcDiagnosticBuffer,
        SwcDiagnosticBuffer.fromErrorBuffer store = (store, store))
    ∧ (∀ (engine : Engine) (p : AstParser) (w : World) (fn1 s1 fn2 s2 : String)
        (db1 db2 : DiagnosticBuilder),
        (engine fixedSwcSyntaxCfg JscTarget.es2019 s1).result = Except.error db1 →
        (engine fixedSwcSyntaxCfg JscTarget.es2019 s2).result = Except.error db2 →
        (parse_module ParseOutcome engine
            (parse_module ParseOutcome engine p w fn1 s1 (fun r => r)).parser
            (parse_module ParseOutcome engine p w fn1 s1 (fun r => r)).world
            fn2 s2 (fun r => r)).value
          = Except.error { diagnostics :=
              p.buffered_error.diagnostics
                ++ (engine fixedSwcSyntaxCfg JscTarget.es2019 s1).emitted
                ++ (engine fixedSwcSyntaxCfg JscTarget.es2019 s2).emitted }) := by
  constructor
  · intro store
    simp [SwcDiagnosticBuffer.fromErrorBuffer, SwcDiagnosticBuffer.clone]
  · intro engine p w fn1 s1 fn2 s2 db1 db2 h1 h2
    simp only [fixedSwcSyntaxCfg] at h1 h2
    simp [parse_module, h1, h2, SwcDiagnosticBuffer.fromErrorBuffer,
      SwcDiagnosticBuffer.clone, emitAll_diagnostics, fixedSwcSyntaxCfg,
      List.append_assoc]

/-- Witness for C3: two failing parses on the same context; the second
failure value carries both parses' diagnostics, in order. -/
theorem from_error_buffer_clone_spec_witness :
    (parse_module ParseOutcome engineFailing
        (parse_module ParseOutcome engineFailing (AstParser.new 0) freshWorld
            "a.ts" "const =" (fun r => r)).parser
        (parse_module ParseOutcome engineFailing (AstParser.new 0) freshWorld
            "a.ts" "const =" (fun r => r)).world
        "b.ts" "const =" (fun r => r)).value
      = Except.error { diagnostics := [sampleDiag, sampleDiag] } := by
  have h := from_error_buffer_clone_spec.2 engineFailing (AstParser.new 0) freshWorld
    "a.ts" "const =" "b.ts" "const =" { diagnostic := sampleDiag }
    { diagnostic := sampleDiag } rfl rfl
  simpa [AstParser.new, engineFailing] using h

/-- Claim C4: whenever dependency analysis fails, `ops_extract_dependencies`
returns the JSON serialization of the literal string `"parse_error"`
(`to_string` produces the JSON string literal, `to_vec` re-encodes it),
regardless of the analyzer's error content; the resulting payload is the
concrete text shown in the second conjunct. -/
theorem extract_dependencies_sentinel {D E : Type}
    (analyze_dependencies : String → Bool → Except E D) (to_string_deps : D → String)
    (data : Option JValue) (params : AnalyzerArguments) (e : E)
    (hdec : from_slice_analyzer data = some params)
    (hfail : analyze_dependencies params.src params.dynamic = Except.error e) :
    ops_extract_dependencies analyze_dependencies to_string_deps data
      = some (Op.sync (encodeJsonString (encodeJsonString "parse_error")))
    ∧ encodeJsonString (encodeJsonString "parse_error")
      = "\"\\\"parse_error\\\"\"" := by
  constructor
  · simp [ops_extract_dependencies, hdec, hfail]
  · rfl

/-- Witness for C4: a concrete failing analyzer on a concrete well-formed
envelope yields exactly the sentinel payload. -/
theorem extract_dependencies_sentinel_witness :
    ops_extract_dependencies (fun _ _ => (Except.error () : Except Unit (List String)))
        encodeJsonStringList sampleAnalyzerEnvelope
      = some (Op.sync "\"\\\"parse_error\\\"\"") := by
  have h := extract_dependencies_sentinel
    (fun _ _ => (Except.error () : Except Unit (List String))) encodeJsonStringList
    sampleAnalyzerEnvelope { src := "const =", dynamic := false } () rfl rfl
  exact h.2 ▸ h.1

/-- Claim C5: an input buffer that does not decode as a JSON object with the
documented fields (here: valid JSON text `{}` with no fields, and a buffer
that is not valid JSON at all) makes all three ops take the uncaught
`.unwrap()` panic path instead of producing any structured response, for
every behaviour of the missing repository modules. -/
theorem decoding_gap_panics :
    from_slice_parse emptyJsonObjectEnvelope = none
    ∧ from_slice_analyzer emptyJsonObjectEnvelope = none
    ∧ from_slice_parse none = none
    ∧ from_slice_analyzer none = none
    ∧ (∀ parse_js : String → SwcModule,
        op_parse parse_js emptyJsonObjectEnvelope = none)
    ∧ (∀ parse_ts : String → Except SwcDiagnosticBuffer SwcModule,
        op_parse_ts parse_ts emptyJsonObjectEnvelope = none)
    ∧ (∀ (D E : Type) (analyze_dependencies : String → Bool → Except E D)
        (to_string_deps : D → String),
        ops_extract_dependencies analyze_dependencies to_string_deps
            emptyJsonObjectEnvelope = none) :=
  ⟨rfl, rfl, rfl, rfl, fun _ => rfl, fun _ => rfl, fun _ _ _ _ => rfl⟩

/-- Claim C6: `AstParser::new` constructs a fresh empty source-map registry,
a fresh empty comments registry, a fresh empty diagnostic store, and a new
isolated globals scope (distinct allocations give distinct scopes), with the
handler built from the boxed buffer emitter (which never auto-prints) and
flags allowing warnings without fatality (`can_emit_warnings`, with
`treat_err_as_bug` at its default `false`) and disabling automatic
buffer-then-flush (`dont_buffer_diagnostics`). -/
theorem ast_parser_new_spec :
    (∀ g : Nat,
        (AstParser.new g).source_map = []
        ∧ (AstParser.new g).comments = []
        ∧ (AstParser.new g).buffered_error = { diagnostics := [] }
        ∧ (AstParser.new g).globals = g
        ∧ (AstParser.new g).handler
            = Handler.with_emitter_and_flags EmitterKind.bufferEmitter
                { HandlerFlags.default with
                    dont_buffer_diagnostics := true,
                    can_emit_warnings := true }
        ∧ EmitterKind.autoPrints (AstParser.new g).handler.emitter = false
        ∧ (AstParser.new g).handler.flags.can_emit_warnings = true
        ∧ (AstParser.new g).handler.flags.dont_buffer_diagnostics = true
        ∧ (AstParser.new g).handler.flags.treat_err_as_bug = false)
    ∧ (∀ g1 g2 : Nat, g1 ≠ g2 →
        (AstParser.new g1).globals ≠ (AstParser.new g2).globals) :=
  ⟨fun _ => ⟨rfl, rfl, rfl, rfl, rfl, rfl, rfl, rfl, rfl⟩, fun _ _ h => h⟩

/-- Witness for C6 at concrete allocations 0 and 1. -/
theorem ast_parser_new_spec_witness :
    (AstParser.new 0).globals ≠ (AstParser.new 1).globals :=
  ast_parser_new_spec.2 0 1 (by decide)

/-- Claim C7: for every call to `parse_module` the context's globals scope is
activated for the whole dynamic extent of the call (the activation stack
seen by registration, lexing, parsing and the continuation has the context's
scope on top of the caller's stack) and the caller's stack is restored on
every exit path — the engine is arbitrary here, so this covers the
parser-failure path as well as success. -/
theorem parse_module_globals_scoped (R : Type) (engine : Engine) (p : AstParser)
    (w : World) (fn src : String) (f : ParseOutcome → R) :
    (parse_module R engine p w fn src f).world = w
    ∧ (parse_module R engine p w fn src f).duringStack
        = p.globals :: w.activeGlobals := by
  rcases h : (engine fixedSwcSyntaxCfg JscTarget.es2019 src).result with db | m <;>
    · simp only [fixedSwcSyntaxCfg] at h
      constructor <;> simp [parse_module, h]

/-- Claim C8: every `parse_module` call hands the lexer the TypeScript
grammar variant with the dynamic-import flag enabled and the fixed Es2019
target; the configuration is the same constant for every call and is
independent of the file identifier and the source text. -/
theorem parse_module_fixed_cfg (R R2 : Type) (engine : Engine)
    (p p2 : AstParser) (w w2 : World) (fn src fn2 src2 : String)
    (f : ParseOutcome → R) (f2 : ParseOutcome → R2) :
    (parse_module R engine p w fn src f).call.cfg
        = SwcSyntaxKind.typescript { TsConfig.default with dynamic_import := true }
    ∧ (parse_module R engine p w fn src f).call.target = JscTarget.es2019
    ∧ ({ TsConfig.default with dynamic_import := true } : TsConfig).dynamic_import = true
    ∧ (parse_module R engine p w fn src f).call.cfg
        = (parse_module R2 engine p2 w2 fn2 src2 f2).call.cfg
    ∧ (parse_module R engine p w fn src f).call.target
        = (parse_module R2 engine p2 w2 fn2 src2 f2).call.target := by
  have hcall : ∀ (S : Type) (q : AstParser) (v : World) (g h' : String)
      (k : ParseOutcome → S),
      (parse_module S engine q v g h' k).call
        = { cfg := fixedSwcSyntaxCfg, target := JscTarget.es2019, source := h' } := by
    intro S q v g h' k
    rcases h : (engine fixedSwcSyntaxCfg JscTarget.es2019 h').result with db | m <;>
      · simp only [fixedSwcSyntaxCfg] at h
        simp [parse_module, h, fixedSwcSyntaxCfg]
  refine ⟨?_, ?_, rfl, ?_, ?_⟩ <;> simp [hcall, fixedSwcSyntaxCfg]

/-- Claim C9: when TypeScript parsing fails, `op_parse_ts` returns the
JSON-serialized rendered diagnostic text (`Display` of the diagnostic
buffer, i.e. the comma-joined messages, serialized by `to_string` and
re-encoded by `to_vec`) instead of an AST; on success it returns the
JSON-serialized module AST. -/
theorem op_parse_ts_error_message
    (parse_ts : String → Except SwcDiagnosticBuffer SwcModule)
    (data : Option JValue) (params : ParseArguments)
    (hdec : from_slice_parse data = some params) :
    (∀ buf : SwcDiagnosticBuffer, parse_ts params.src = Except.error buf →
        op_parse_ts parse_ts data
          = some (Op.sync (encodeJsonString
              (encodeJsonString (SwcDiagnosticBuffer.fmt buf)))))
    ∧ (∀ m : SwcModule, parse_ts params.src = Except.ok m →
        op_parse_ts parse_ts data = some (Op.sync (encodeJsonString m.serialized))) := by
  constructor
  · intro buf h
    simp [op_parse_ts, hdec, h]
  · intro m h
    simp [op_parse_ts, hdec, h]

/-- Witness for C9: a concretely failing parse yields the encoded message
text; a concretely succeeding parse yields the encoded AST. -/
theorem op_parse_ts_error_message_witness :
    op_parse_ts (fun _ => Except.error { diagnostics := [sampleDiag] }) sampleParseEnvelope
      = some (Op.sync "\"\\\"Unexpected token\\\"\"")
    ∧ op_parse_ts (fun _ => Except.ok { serialized := "mod-ast-json" }) sampleParseEnvelope
      = some (Op.sync "\"mod-ast-json\"") := by
  have herr := (op_parse_ts_error_message
    (fun _ => Except.error { diagnostics := [sampleDiag] }) sampleParseEnvelope
    { src := "const =" } rfl).1 { diagnostics := [sampleDiag] } rfl
  have hok := (op_parse_ts_error_message
    (fun _ => Except.ok { serialized := "mod-ast-json" }) sampleParseEnvelope
    { src := "const =" } rfl).2 { serialized := "mod-ast-json" } rfl
  have e1 : encodeJsonString (encodeJsonString
      (SwcDiagnosticBuffer.fmt { diagnostics := [sampleDiag] }))
      = "\"\\\"Unexpected token\\\"\"" := rfl
  have e2 : encodeJsonString "mod-ast-json" = "\"mod-ast-json\"" := rfl
  exact ⟨e1 ▸ herr, e2 ▸ hok⟩

/-- Claim C10: parsing is deterministic — the engine is a pure function of
the configuration and source text, and the outcome `parse_module` delivers
on an equivalent fresh context (any globals allocation, any caller
activation stack) is the same: identical module AST on success, identical
diagnostic records (messages and spans) on failure. -/
theorem parse_module_deterministic (engine : Engine) (g1 g2 : Nat) (w1 w2 : World)
    (fn src : String) :
    (parse_module ParseOutcome engine (AstParser.new g1) w1 fn src (fun r => r)).value
      = (parse_module ParseOutcome engine (AstParser.new g2) w2 fn src (fun r => r)).value := by
  rcases h : (engine fixedSwcSyntaxCfg JscTarget.es2019 src).result with db | m <;>
    · simp only [fixedSwcSyntaxCfg] at h
      simp [parse_module, h, AstParser.new]
